import Mathlib

/-!
Verification of the zonaite GFS selective-download pipeline
(`src/zonaite/forecast/gfs.py`) against its design specification.

The Python source is shallowly embedded: pure parsing/matching code becomes
Lean functions on `String`/`List`; the S3 client, the filesystem and the
wall clock become explicit oracles in an environment record; a Python
exception becomes the `.error` arm of `Except` (the top-level `try/except`
in `download_gfs_data` becomes the match arms that turn `.error` into a
failure result).  Byte strings are `List Nat`, float metrics are `ℚ`.
-/

namespace Zonaite

/-- Model of Python `str.strip()`: remove leading and trailing whitespace
characters.  (Python also strips a few rarer Unicode space characters that
never occur in idx files; those are not modelled.)  Strings are handled as
their character lists so that every operation reduces in the kernel. -/
def pyStrip (cs : List Char) : List Char :=
  ((cs.dropWhile Char.isWhitespace).reverse.dropWhile Char.isWhitespace).reverse

/-- Model of Python `str.split(sep)` for a one-character separator: split
into the (possibly empty) runs between separator occurrences, so that
`splitSep c [] = [[]]`, matching Python's `"".split(c) == [""]`. -/
def splitSep (sep : Char) : List Char → List (List Char)
  | [] => [[]]
  | c :: cs =>
    let r := splitSep sep cs
    if c = sep then [] :: r
    else (c :: r.headD []) :: r.tail

/-- Model of Python `int(s)`: strip surrounding whitespace, an optional
single leading sign, then a nonempty run of ASCII decimal digits.
(Underscore separators and non-ASCII digits, which CPython also accepts,
do not occur in idx files and are not modelled.)  `none` models the
`ValueError` that `int` raises otherwise. -/
def pyInt (cs : List Char) : Option Int :=
  let t := pyStrip cs
  let signDigits : Int × List Char :=
    match t with
    | '+' :: ds => (1, ds)
    | '-' :: ds => (-1, ds)
    | ds => (1, ds)
  let sign := signDigits.1
  let ds := signDigits.2
  if ds ≠ [] ∧ ds.all Char.isDigit then
    some (sign * (ds.foldl (fun a c => a * 10 + (c.toNat - 48)) 0 : Nat))
  else
    none

/-- `pyInt` wrapped as `Except`, carrying the `ValueError` message that
Python's `int` raises (quotes around the literal omitted). -/
def pyIntE (cs : List Char) : Except String Int :=
  match pyInt cs with
  | some n => .ok n
  | none => .error ("invalid literal for int() with base 10: " ++ String.mk cs)

/-- Embeds the `GribElement` dataclass (gfs.py lines 82-96): one entry of a
GRIB2 idx file with its resolved byte range.  The Python field `variable`
is called `var` here because `variable` is a Lean keyword. -/
structure GribElement where
  var : String
  level : String
  start_byte : Int
  end_byte : Int
deriving DecidableEq

/-- One element-selection target, the Python dict
`\x7b"name": ..., "level": ...\x7d` passed to `find_elements`. -/
structure TargetElement where
  name : String
  level : String
deriving DecidableEq

/-- Embeds the end-byte derivation inside `_parse_idx_content`
(gfs.py lines 140-147): the end byte of the current record is read from the
start-offset field of the *raw next line*, provided that line is non-blank
and has at least two colon-separated fields; `.ok none` when no end byte is
derivable, `.error` when `int` raises on the next line's offset field. -/
def endByteOf : List (List Char) → Except String (Option Int)
  | [] => .ok none
  | next :: _ =>
    if (pyStrip next).isEmpty then .ok none
    else
      let nparts := splitSep ':' (pyStrip next)
      if 2 ≤ nparts.length then
        match pyIntE (nparts.getD 1 []) with
        | .error e => .error e
        | .ok n => .ok (some n)
      else .ok none

/-- Embeds the loop body of `GribIdx._parse_idx_content`
(gfs.py lines 127-159), recursing on the list of lines obtained from
`idx_content.split("\n")`.  Blank lines and lines with fewer than six
colon-separated fields are skipped; an accepted line first parses its own
offset field with `int` (which can raise), then derives its end byte from
the next line, and is dropped when no end byte is available. -/
def parseLines : List (List Char) → Except String (List GribElement)
  | [] => .ok []
  | line :: rest =>
    if (pyStrip line).isEmpty then parseLines rest
    else
      let parts := splitSep ':' (pyStrip line)
      if 6 ≤ parts.length then
        match pyIntE (parts.getD 1 []) with
        | .error e => .error e
        | .ok start_byte =>
          match endByteOf rest with
          | .error e => .error e
          | .ok none => parseLines rest
          | .ok (some end_byte) =>
            match parseLines rest with
            | .error e => .error e
            | .ok tail =>
              .ok (⟨String.mk (parts.getD 3 []), String.mk (parts.getD 4 []),
                    start_byte, end_byte⟩ :: tail)
      else parseLines rest

/-- Embeds `GribIdx._parse_idx_content` (gfs.py lines 118-159): split the
idx text on newlines and run the line scanner. -/
def parse_idx_content (idx_content : String) : Except String (List GribElement) :=
  parseLines (splitSep '\n' idx_content.data)

/-- Embeds `GribIdx.find_elements` (gfs.py lines 161-186): the nested
`for target / for elem` loops appending every exact (variable, level)
match to the accumulating result list. -/
def find_elements (elements : List GribElement) (targets : List TargetElement) :
    List GribElement :=
  targets.foldl
    (fun result target =>
      elements.foldl
        (fun result elem =>
          if elem.var == target.name && elem.level == target.level then
            result ++ [elem]
          else result)
        result)
    []

/-- The matcher as §4.2 of the spec words it: for each target in caller
order, all exactly-matching records in index order, concatenated.  Stated
from the spec, to be compared with `find_elements` (which is translated
from the source). -/
def find_elements_specform (elements : List GribElement)
    (targets : List TargetElement) : List GribElement :=
  targets.flatMap (fun target =>
    elements.filter (fun elem =>
      elem.var == target.name && elem.level == target.level))

instance {ε α : Type} [DecidableEq ε] [DecidableEq α] : DecidableEq (Except ε α) :=
  fun a b =>
    match a, b with
    | .ok x, .ok y => if h : x = y then .isTrue (by simp [h]) else .isFalse (by simp [h])
    | .error x, .error y => if h : x = y then .isTrue (by simp [h]) else .isFalse (by simp [h])
    | .ok _, .error _ => .isFalse (by simp)
    | .error _, .ok _ => .isFalse (by simp)

/-- The guarded throughput computation shared by `download_bytes`
(gfs.py line 245) and `download_gfs_data` (lines 383-385): bytes divided
by elapsed seconds, scaled to MB/s, with the division taken only when the
elapsed time is strictly positive and `0` reported otherwise. -/
def speed_mbps (byte_count : Nat) (duration : ℚ) : ℚ :=
  if 0 < duration then ((byte_count : ℚ) / 1024 / 1024) / duration else 0

/-- Days since 1970-01-01 of a proleptic-Gregorian civil date, the calendar
CPython's `datetime` uses (Hinnant's `days_from_civil` algorithm). -/
def daysFromCivil (y : Int) (m d : Nat) : Int :=
  let y2 : Int := if m ≤ 2 then y - 1 else y
  let era : Int := y2.fdiv 400
  let yoe : Nat := (y2 - era * 400).toNat
  let mp : Nat := if 2 < m then m - 3 else m + 9
  let doy : Nat := (153 * mp + 2) / 5 + d - 1
  let doe : Nat := yoe * 365 + yoe / 4 - yoe / 100 + doy
  era * 146097 + (doe : Int) - 719468

/-- Civil date (year, month, day) of a count of days since 1970-01-01
(Hinnant's `civil_from_days` algorithm). -/
def civilFromDays (z : Int) : Int × Nat × Nat :=
  let z2 := z + 719468
  let era := z2.fdiv 146097
  let doe : Nat := (z2 - era * 146097).toNat
  let yoe : Nat := (doe - doe / 1460 + doe / 36524 - doe / 146096) / 365
  let y : Int := (yoe : Int) + era * 400
  let doy : Nat := doe - (365 * yoe + yoe / 4 - yoe / 100)
  let mp : Nat := (5 * doy + 2) / 153
  let d : Nat := doy - (153 * mp + 2) / 5 + 1
  let m : Nat := if mp < 10 then mp + 3 else mp - 9
  (if m ≤ 2 then y + 1 else y, m, d)

/-- A Python `datetime` down to minute precision (seconds and microseconds
never influence the derived date/cycle strings).  `tzOffsetMinutes` is the
`utcoffset` of its `tzinfo` in minutes, `none` for a naive datetime. -/
structure PyDatetime where
  year : Int
  month : Nat
  day : Nat
  hour : Nat
  minute : Nat
  tzOffsetMinutes : Option Int
deriving DecidableEq

/-- Embeds the timezone normalization at gfs.py lines 320-324: a naive
datetime is tagged UTC with its wall time unchanged
(`dt.replace(tzinfo=timezone.utc)`); an aware one is converted
(`dt.astimezone(timezone.utc)`, i.e. the UTC offset is subtracted from the
wall-clock instant). -/
def toUtc (dt : PyDatetime) : PyDatetime :=
  match dt.tzOffsetMinutes with
  | none => { dt with tzOffsetMinutes := some 0 }
  | some off =>
    let total : Int :=
      daysFromCivil dt.year dt.month dt.day * 1440 + dt.hour * 60 + dt.minute - off
    let days := total.fdiv 1440
    let rem : Nat := (total - days * 1440).toNat
    let ymd := civilFromDays days
    ⟨ymd.1, ymd.2.1, ymd.2.2, rem / 60, rem % 60, some 0⟩

/-- Zero-pad the decimal rendering of `n` to width `w`. -/
def padZeros (w n : Nat) : String :=
  let s := Nat.repr n
  String.mk (List.replicate (w - s.length) '0') ++ s

/-- Embeds `dt.strftime("%Y%m%d")` (gfs.py line 327).  CPython datetimes
have `1 ≤ year ≤ 9999`, so the `Int.toNat` clamp is never exercised. -/
def fmtYmd (dt : PyDatetime) : String :=
  padZeros 4 dt.year.toNat ++ padZeros 2 dt.month ++ padZeros 2 dt.day

/-- Embeds `dt.strftime("%H")` (gfs.py line 328). -/
def fmtH (dt : PyDatetime) : String :=
  padZeros 2 dt.hour

/-- The prefix of `p` up to and including its last slash (`p[:p.rfind(sep)+1]`
in `posixpath.dirname`), or `[]` when `p` has no slash. -/
def takeToLastSlash : List Char → List Char
  | [] => []
  | c :: cs =>
    let r := takeToLastSlash cs
    if r.isEmpty then (if c = '/' then ['/'] else [])
    else c :: r

/-- Model of Python `os.path.dirname` (POSIX): everything before the last
slash, with trailing slashes stripped unless the result is all slashes;
the empty string when the path has no directory component. -/
def dirname (p : String) : String :=
  let head := takeToLastSlash p.data
  if head.isEmpty then ""
  else if head.all (fun c => c = '/') then String.mk head
  else String.mk ((head.reverse.dropWhile (fun c => c = '/')).reverse)

/-- One request issued to the S3 collaborator: a whole-object GET or a
ranged GET whose two offsets are the transmitted *inclusive* byte bounds
of the `Range: bytes=first-last` header. -/
inductive S3Request where
  | getFull (bucket key : String)
  | getRange (bucket key : String) (firstByte lastByte : Int)
deriving DecidableEq

/-- The external collaborators of `download_gfs_data`, as oracles: the S3
client (whole-object and ranged reads), the filesystem (`os.makedirs` and
the `open`/`write` step, the latter modelled as one atomic fallible
operation per §4.4's single-write design), and the wall clock's total
elapsed time.  `.error` models the exception the collaborator raises. -/
structure S3Env where
  getObjectFull : String → String → Except String String
  getObjectRange : String → String → Int → Int → Except String (List Nat)
  mkdirOracle : String → Except String Unit
  writeOracle : String → Except String Unit
  totalElapsed : ℚ

/-- The local filesystem contents: path to file bytes. -/
def FileSystem : Type := String → Option (List Nat)

/-- Models `os.makedirs(path, exist_ok=True)` as called at gfs.py line 378:
`os.makedirs("")` always raises `FileNotFoundError` (CPython semantics for
the empty path); any other path is decided by the environment's oracle
(permissions, disk state). -/
def makedirs (env : S3Env) (p : String) : Except String Unit :=
  if p = "" then .error "[Errno 2] No such file or directory"
  else env.mkdirOracle p

/-- Embeds `download_bytes` (gfs.py lines 201-251): one ranged S3 read for
the half-open interval [start_byte, end_byte), transmitted as the inclusive
HTTP byte range `start_byte ... end_byte - 1` (line 239).  The per-read
timing computed there feeds only logging; its guarded division is
`speed_mbps`. -/
def download_bytes (env : S3Env) (bucket key : String) (start_byte end_byte : Int) :
    Except String (List Nat) :=
  env.getObjectRange bucket key start_byte (end_byte - 1)

/-- The fetch loop of gfs.py lines 369-375: one `download_bytes` call per
matched element, strictly in match order, aborting on the first failure. -/
def fetchChunks (env : S3Env) (bucket key : String) :
    List GribElement → Except String (List (List Nat))
  | [] => .ok []
  | e :: rest =>
    match download_bytes env bucket key e.start_byte e.end_byte with
    | .error err => .error err
    | .ok chunk =>
      match fetchChunks env bucket key rest with
      | .error err => .error err
      | .ok tail => .ok (chunk :: tail)

/-- The ranged requests actually issued by the fetch loop: one per element
until (and including) the first failing read, none after it. -/
def rangeTrace (env : S3Env) (bucket key : String) :
    List GribElement → List S3Request
  | [] => []
  | e :: rest =>
    .getRange bucket key e.start_byte (e.end_byte - 1) ::
      match download_bytes env bucket key e.start_byte e.end_byte with
      | .ok _ => rangeTrace env bucket key rest
      | .error _ => []

/-- Embeds the `GFSDownloadResult` dataclass (gfs.py lines 51-79): float
metrics carried as `ℚ`. -/
structure GFSDownloadResult where
  success : Bool
  date : String
  cycle : String
  forecast_hour : String
  elements : List TargetElement
  file_format : String
  file_path : Option String
  file_size_mb : Option ℚ
  download_time_s : Option ℚ
  download_speed_mbs : Option ℚ
  error_message : Option String
deriving DecidableEq

/-- Everything observable about one `download_gfs_data` call: its returned
result, the S3 requests it issued in order, and the filesystem afterwards. -/
structure DownloadRun where
  result : GFSDownloadResult
  trace : List S3Request
  fs : FileSystem

/-- Embeds the grid-file key template of gfs.py line 341:
`f"gfs.\x7bdate_str\x7d/\x7bcycle_str\x7d/atmos/gfs.t\x7bcycle_str\x7dz.pgrb2.0p25.f\x7bforecast_hour\x7d"`
with `date_str`/`cycle_str` derived from the UTC-normalized timestamp
(lines 320-328) and the forecast-hour string inserted verbatim. -/
def gfs_grib_key (dt : PyDatetime) (forecast_hour : String) : String :=
  "gfs." ++ fmtYmd (toUtc dt) ++ "/" ++ fmtH (toUtc dt) ++ "/atmos/gfs.t" ++
    fmtH (toUtc dt) ++ "z.pgrb2.0p25.f" ++ forecast_hour

/-- Embeds the index-key derivation of gfs.py line 342: the grid key with
the fixed suffix `".idx"` appended. -/
def gfs_idx_key (dt : PyDatetime) (forecast_hour : String) : String :=
  gfs_grib_key dt forecast_hour ++ ".idx"

/-- A rendering of the requested element list for the not-found error
message (gfs.py line 361 interpolates the Python repr of the list; the
exact text is immaterial to every claim, only that a message is present). -/
def reprTargets (ts : List TargetElement) : String :=
  "[" ++ String.intercalate ", " (ts.map (fun t => t.name ++ " @ " ++ t.level)) ++ "]"

/-- Embeds `download_gfs_data` (gfs.py lines 254-405): normalize the
timestamp to UTC, derive the date/cycle strings, build the grid and index
keys, fetch and parse the index, match the requested elements, fetch every
matched byte range in order, and only then create the directory and write
the concatenated buffer; every raised exception is caught by the
surrounding `try/except` and becomes a failure result carrying
`"Error downloading data: "` plus the exception text. -/
def download_gfs_data (env : S3Env) (fs : FileSystem) (dt : PyDatetime)
    (forecast_hour : String) (elements : List TargetElement)
    (output_path : String) (bucket : String) : DownloadRun :=
  let result0 : GFSDownloadResult :=
    ⟨false, fmtYmd (toUtc dt), fmtH (toUtc dt), forecast_hour, elements, "grib2",
      some output_path, none, none, none, none⟩
  let grib_key := gfs_grib_key dt forecast_hour
  let idx_key := gfs_idx_key dt forecast_hour
  match env.getObjectFull bucket idx_key with
  | .error e =>
    ⟨{ result0 with error_message := some ("Error downloading data: " ++ e) },
      [.getFull bucket idx_key], fs⟩
  | .ok idx_content =>
    match parse_idx_content idx_content with
    | .error e =>
      ⟨{ result0 with error_message := some ("Error downloading data: " ++ e) },
        [.getFull bucket idx_key], fs⟩
    | .ok records =>
      let selected := find_elements records elements
      if selected.isEmpty then
        ⟨{ result0 with
            error_message := some ("Specified elements not found: " ++ reprTargets elements) },
          [.getFull bucket idx_key], fs⟩
      else
        let trace := S3Request.getFull bucket idx_key ::
          rangeTrace env bucket grib_key selected
        match fetchChunks env bucket grib_key selected with
        | .error e =>
          ⟨{ result0 with error_message := some ("Error downloading data: " ++ e) },
            trace, fs⟩
        | .ok chunks =>
          let merged := chunks.flatten
          let total_bytes := merged.length
          match makedirs env (dirname output_path) with
          | .error e =>
            ⟨{ result0 with error_message := some ("Error downloading data: " ++ e) },
              trace, fs⟩
          | .ok _ =>
            match env.writeOracle output_path with
            | .error e =>
              ⟨{ result0 with error_message := some ("Error downloading data: " ++ e) },
                trace, fs⟩
            | .ok _ =>
              ⟨{ result0 with
                  success := true,
                  file_size_mb := some ((total_bytes : ℚ) / 1024 / 1024),
                  download_time_s := some env.totalElapsed,
                  download_speed_mbs := some (speed_mbps total_bytes env.totalElapsed) },
                trace, fun p => if p = output_path then some merged else fs p⟩

/-! ### Well-formed index entries (the hypothesis shape of claim C1) -/

/-- The data a well-formed idx line carries: start offset, variable code,
level description. -/
structure IdxEntry where
  off : Int
  var : String
  lvl : String
deriving DecidableEq

/-- A line is well-formed for entry `e` exactly when the parser's own line
criteria hold of it: at least six colon-separated fields after stripping,
with `int` succeeding on the second field and yielding `e.off`, and the
fourth and fifth fields being `e.var` and `e.lvl`. -/
def wfLine (line : List Char) (e : IdxEntry) : Bool :=
  let parts := splitSep ':' (pyStrip line)
  decide (6 ≤ parts.length) && pyInt (parts.getD 1 []) == some e.off &&
    String.mk (parts.getD 3 []) == e.var && String.mk (parts.getD 4 []) == e.lvl

/-- Every line is well-formed for the corresponding entry (and the two
lists have equal length). -/
def wfLines : List (List Char) → List IdxEntry → Bool
  | [], [] => true
  | l :: ls, e :: es => wfLine l e && wfLines ls es
  | _, _ => false

/-- The record list a well-formed consecutive index should parse to: one
record per entry except the last, entry i paired with entry i+1's offset
as its end byte. -/
def expectedRecords : List IdxEntry → List GribElement
  | [] => []
  | [_] => []
  | a :: b :: rest => ⟨a.var, a.lvl, a.off, b.off⟩ :: expectedRecords (b :: rest)

/-! ### Concrete fixtures used by witnesses and counterexamples -/

/-- The three-line idx scenario of spec §8, with offsets 0, 500, 900. -/
def sampleIdx : String :=
  "1:0:d=20250101:TMP:2 m above ground:\n2:500:d=20250101:UGRD:10 m above ground:\n3:900:d=20250101:VGRD:10 m above ground:"

/-- A four-entry index whose start offsets are 100, 500, 900, 1400 (the
offset-derivation example of spec §8). -/
def idx4 : String :=
  "1:100:d=20250101:TMP:2 m above ground:\n2:500:d=20250101:UGRD:10 m above ground:\n3:900:d=20250101:VGRD:10 m above ground:\n4:1400:d=20250101:TMP:surface:"

/-- The entries of `idx4`. -/
def idx4Entries : List IdxEntry :=
  [⟨100, "TMP", "2 m above ground"⟩, ⟨500, "UGRD", "10 m above ground"⟩,
   ⟨900, "VGRD", "10 m above ground"⟩, ⟨1400, "TMP", "surface"⟩]

/-- `sampleIdx` with its first line damaged: six colon-separated fields but
a non-integer offset field, so `int(parts[1])` raises. -/
def badOffsetIdx : String :=
  "x:y:d=20250101:TMP:2 m above ground:\n2:500:d=20250101:UGRD:10 m above ground:\n3:900:d=20250101:VGRD:10 m above ground:"

/-- The last two lines of `badOffsetIdx` on their own. -/
def badOffsetIdxTail : String :=
  "2:500:d=20250101:UGRD:10 m above ground:\n3:900:d=20250101:VGRD:10 m above ground:"

/-- An environment in which every collaborator succeeds: the index served
is `sampleIdx`, a ranged read for inclusive bounds `s ... e` returns
`e + 1 - s` bytes of `7`, directory creation and the file write succeed,
and the measured elapsed time is `0`. -/
def okEnv : S3Env :=
  ⟨fun _ _ => .ok sampleIdx,
   fun _ _ s e => .ok (List.replicate (e + 1 - s).toNat 7),
   fun _ => .ok (),
   fun _ => .ok (),
   0⟩

/-- Like `okEnv` but the ranged read for any start other than `0` fails:
the first range read succeeds and every later one raises. -/
def failSecondEnv : S3Env :=
  ⟨fun _ _ => .ok sampleIdx,
   fun _ _ s e =>
     if s = 0 then .ok (List.replicate (e + 1 - s).toNat 7)
     else .error "connection reset",
   fun _ => .ok (),
   fun _ => .ok (),
   0⟩

/-- An environment whose index fetch serves `badOffsetIdx`. -/
def badIdxEnv : S3Env :=
  ⟨fun _ _ => .ok badOffsetIdx,
   fun _ _ s e => .ok (List.replicate (e + 1 - s).toNat 7),
   fun _ => .ok (),
   fun _ => .ok (),
   0⟩

/-- An empty local filesystem. -/
def emptyFS : FileSystem := fun _ => none

/-- A filesystem already holding a file at the usual destination path. -/
def fsWithFile : FileSystem :=
  fun p => if p = "out/f.grib2" then some [1, 2, 3] else none

/-- 2025-03-26 00:00, timezone-naive. -/
def sampleDt : PyDatetime := ⟨2025, 3, 26, 0, 0, none⟩

/-- The element pair requested in the witnesses. -/
def sampleTargets : List TargetElement :=
  [⟨"TMP", "2 m above ground"⟩, ⟨"UGRD", "10 m above ground"⟩]

/-! ## Helper lemmas -/

set_option maxRecDepth 40000

theorem foldl_append_filter {α : Type} (p : α → Bool) (l acc : List α) :
    l.foldl (fun r e => if p e then r ++ [e] else r) acc = acc ++ l.filter p := by
  induction l generalizing acc with
  | nil => simp
  | cons x xs ih =>
    by_cases h : p x = true <;>
      simp [List.filter_cons, h, ih, List.append_assoc]

theorem find_elements_eq_spec_aux (elements : List GribElement)
    (ts : List TargetElement) (acc : List GribElement) :
    ts.foldl
      (fun result target =>
        elements.foldl
          (fun result elem =>
            if elem.var == target.name && elem.level == target.level then
              result ++ [elem]
            else result)
          result)
      acc
      = acc ++ ts.flatMap
          (fun t => elements.filter (fun e => e.var == t.name && e.level == t.level)) := by
  induction ts generalizing acc with
  | nil => simp
  | cons t ts ih =>
    rw [List.foldl_cons,
      foldl_append_filter (fun e => e.var == t.name && e.level == t.level) elements acc,
      ih, List.flatMap_cons, List.append_assoc]

theorem splitSep_ne_nil (sep : Char) (cs : List Char) : splitSep sep cs ≠ [] := by
  cases cs with
  | nil => simp [splitSep]
  | cons c cs => simp only [splitSep]; split <;> simp

theorem six_le_parts_ne_blank {l : List Char}
    (h : 6 ≤ (splitSep ':' (pyStrip l)).length) : (pyStrip l).isEmpty = false := by
  cases hl : pyStrip l with
  | nil => rw [hl] at h; simp [splitSep] at h
  | cons c cs => simp

theorem expectedRecords_length :
    ∀ (entries : List IdxEntry), (expectedRecords entries).length = entries.length - 1
  | [] => rfl
  | [_] => rfl
  | a :: b :: rest => by
    have hr := expectedRecords_length (b :: rest)
    simp only [expectedRecords, List.length_cons] at hr ⊢
    omega

theorem parseLines_wf (lines : List (List Char)) (entries : List IdxEntry)
    (h : wfLines lines entries = true) :
    parseLines lines = .ok (expectedRecords entries) := by
  induction lines generalizing entries with
  | nil =>
    cases entries with
    | nil => rfl
    | cons e es => simp [wfLines] at h
  | cons l ls ih =>
    cases entries with
    | nil => simp [wfLines] at h
    | cons e es =>
      rw [show wfLines (l :: ls) (e :: es) = (wfLine l e && wfLines ls es) from rfl,
        Bool.and_eq_true] at h
      obtain ⟨h1, h2⟩ := h
      rw [wfLine] at h1
      simp only [Bool.and_eq_true, beq_iff_eq, decide_eq_true_eq] at h1
      obtain ⟨⟨⟨hlen, hoff⟩, hvar⟩, hlvl⟩ := h1
      have hne : (pyStrip l).isEmpty = false := six_le_parts_ne_blank hlen
      rw [parseLines]
      simp only [hne, Bool.false_eq_true, if_false, if_pos hlen, pyIntE, hoff]
      cases ls with
      | nil =>
        cases es with
        | nil => simp [endByteOf, expectedRecords, parseLines]
        | cons e2 es2 => simp [wfLines] at h2
      | cons l2 ls2 =>
        cases es with
        | nil => simp [wfLines] at h2
        | cons e2 es2 =>
          rw [show wfLines (l2 :: ls2) (e2 :: es2) = (wfLine l2 e2 && wfLines ls2 es2) from rfl,
            Bool.and_eq_true] at h2
          obtain ⟨h21, h22⟩ := h2
          rw [wfLine] at h21
          simp only [Bool.and_eq_true, beq_iff_eq, decide_eq_true_eq] at h21
          obtain ⟨⟨⟨hlen2, hoff2⟩, hvar2⟩, hlvl2⟩ := h21
          have hne2 : (pyStrip l2).isEmpty = false := six_le_parts_ne_blank hlen2
          have h2full : wfLines (l2 :: ls2) (e2 :: es2) = true := by
            rw [show wfLines (l2 :: ls2) (e2 :: es2) = (wfLine l2 e2 && wfLines ls2 es2) from rfl]
            rw [Bool.and_eq_true]
            constructor
            · rw [wfLine]
              simp only [Bool.and_eq_true, beq_iff_eq, decide_eq_true_eq]
              exact ⟨⟨⟨hlen2, hoff2⟩, hvar2⟩, hlvl2⟩
            · exact h22
          rw [endByteOf]
          simp only [hne2, Bool.false_eq_true, if_false,
            if_pos (by omega : 2 ≤ (splitSep ':' (pyStrip l2)).length), pyIntE, hoff2]
          rw [ih (e2 :: es2) h2full]
          simp only [expectedRecords]
          rw [hvar, hlvl]

/-! ## Claim theorems -/

/-- C5: the matcher returns exactly the records whose variable and level
equal the target's name and level under exact string equality, grouped by
target order — all matches for target 1 in index order, then all for
target 2, and so on — a target matching several records contributes all of
them, one matching none contributes nothing, and the result is not
re-sorted by byte offset.  Formally: the source's accumulating double loop
`find_elements` equals the spec-side grouped filter
`find_elements_specform`. -/
theorem find_elements_grouped_by_request_order (elements : List GribElement)
    (targets : List TargetElement) :
    find_elements elements targets = find_elements_specform elements targets := by
  unfold find_elements find_elements_specform
  simpa using find_elements_eq_spec_aux elements targets []

/-- C1: for every index text every line of which is well-formed for the
corresponding entry (at least six colon-separated fields with an integer
start offset in the second field), parsing yields one record per line
except the last, record i spanning the byte range
[off(i), off(i+1)); the final line yields no record because it has no
successor offset. -/
theorem parse_wellformed_consecutive_entries (idx : String) (entries : List IdxEntry)
    (h : wfLines (splitSep '\n' idx.data) entries = true) :
    parse_idx_content idx = .ok (expectedRecords entries) ∧
    (expectedRecords entries).length = entries.length - 1 :=
  ⟨parseLines_wf _ _ h, expectedRecords_length entries⟩

/-- Witness for C1 at the spec's concrete offsets [100, 500, 900, 1400]:
parsing yields exactly the ranges [100,500), [500,900), [900,1400). -/
theorem parse_wellformed_consecutive_entries_witness :
    wfLines (splitSep '\n' idx4.data) idx4Entries = true ∧
    parse_idx_content idx4 =
      .ok [⟨"TMP", "2 m above ground", 100, 500⟩,
           ⟨"UGRD", "10 m above ground", 500, 900⟩,
           ⟨"VGRD", "10 m above ground", 900, 1400⟩] := by
  refine ⟨by decide, ?_⟩
  rw [(parse_wellformed_consecutive_entries idx4 idx4Entries (by decide)).1]
  decide

/-- C4 counterexample: a malformed line can abort parsing and surface an
error.  `badOffsetIdx` has a first line with six colon-separated fields
whose offset field is not an integer, so `int(parts[1])` raises and the
whole parse returns an error — even though the remaining lines on their
own parse to a record.  This contradicts the claim that no malformed line
causes the parse of the remaining lines to be abandoned or an error to be
surfaced. -/
theorem parse_malformed_line_aborts_cex :
    parse_idx_content badOffsetIdx =
      .error "invalid literal for int() with base 10: y" ∧
    parse_idx_content badOffsetIdxTail =
      .ok [⟨"UGRD", "10 m above ground", 500, 900⟩] :=
  ⟨by decide, by decide⟩

/-- C4 (amended): blank lines and lines with fewer than six colon-separated
fields are silently skipped and never abort parsing, and a wholly empty
index yields an empty record list; but a line with at least six fields
whose offset field is not an integer raises an error that aborts parsing
(surfaced by the orchestrator as a failure outcome). -/
theorem parse_skips_blank_and_short_lines (l : List Char) (rest : List (List Char)) :
    ((pyStrip l).isEmpty = true → parseLines (l :: rest) = parseLines rest) ∧
    ((pyStrip l).isEmpty = false → (splitSep ':' (pyStrip l)).length < 6 →
      parseLines (l :: rest) = parseLines rest) ∧
    parse_idx_content "" = .ok [] := by
  refine ⟨?_, ?_, by decide⟩
  · intro h
    simp [parseLines, h]
  · intro h1 h2
    rw [parseLines]
    simp only [h1, Bool.false_eq_true, if_false]
    rw [if_neg (by omega : ¬ 6 ≤ (splitSep ':' (pyStrip l)).length)]

/-- Witness for C4 (amended): a blank line and a three-field line are each
skipped without affecting the parse of the remaining input. -/
theorem parse_skips_blank_and_short_lines_witness :
    parseLines (" ".data :: ["1:200:d:TMP:2 m:".data]) =
      parseLines ["1:200:d:TMP:2 m:".data] ∧
    parseLines ("1:2:3".data :: ["1:200:d:TMP:2 m:".data]) =
      parseLines ["1:200:d:TMP:2 m:".data] :=
  ⟨(parse_skips_blank_and_short_lines _ _).1 (by decide),
   (parse_skips_blank_and_short_lines _ _).2.1 (by decide) (by decide)⟩

/-! ## Download pipeline lemmas and remaining claims -/

theorem download_failure_fs_unchanged (env : S3Env) (fs : FileSystem) (dt : PyDatetime)
    (fh : String) (elements : List TargetElement) (path bucket : String)
    (h : (download_gfs_data env fs dt fh elements path bucket).result.success = false) :
    (download_gfs_data env fs dt fh elements path bucket).fs = fs := by
  unfold download_gfs_data at h ⊢
  cases hfull : env.getObjectFull bucket (gfs_idx_key dt fh) with
  | error e => simp [hfull]
  | ok idxc =>
    simp only [hfull] at h ⊢
    cases hparse : parse_idx_content idxc with
    | error e => simp [hparse]
    | ok records =>
      simp only [hparse] at h ⊢
      cases hsel : (find_elements records elements).isEmpty with
      | true => simp [hsel]
      | false =>
        simp only [hsel] at h ⊢
        cases hfetch : fetchChunks env bucket (gfs_grib_key dt fh)
            (find_elements records elements) with
        | error e => simp [hfetch]
        | ok chunks =>
          simp only [hfetch] at h ⊢
          cases hmk : makedirs env (dirname path) with
          | error e => simp [hmk]
          | ok u =>
            simp only [hmk] at h ⊢
            cases hw : env.writeOracle path with
            | error e => simp [hw]
            | ok u2 => simp [hw] at h

theorem download_success_inv (env : S3Env) (fs : FileSystem) (dt : PyDatetime)
    (fh : String) (elements : List TargetElement) (path bucket : String)
    (h : (download_gfs_data env fs dt fh elements path bucket).result.success = true) :
    ∃ idxc records chunks,
      env.getObjectFull bucket (gfs_idx_key dt fh) = .ok idxc ∧
      parse_idx_content idxc = .ok records ∧
      (find_elements records elements).isEmpty = false ∧
      fetchChunks env bucket (gfs_grib_key dt fh) (find_elements records elements) =
        .ok chunks ∧
      download_gfs_data env fs dt fh elements path bucket =
        ⟨⟨true, fmtYmd (toUtc dt), fmtH (toUtc dt), fh, elements, "grib2", some path,
           some ((chunks.flatten.length : ℚ) / 1024 / 1024), some env.totalElapsed,
           some (speed_mbps chunks.flatten.length env.totalElapsed), none⟩,
         .getFull bucket (gfs_idx_key dt fh) ::
           rangeTrace env bucket (gfs_grib_key dt fh) (find_elements records elements),
         fun p => if p = path then some chunks.flatten else fs p⟩ := by
  unfold download_gfs_data at h
  cases hfull : env.getObjectFull bucket (gfs_idx_key dt fh) with
  | error e => simp [hfull] at h
  | ok idxc =>
    simp only [hfull] at h
    cases hparse : parse_idx_content idxc with
    | error e => simp [hparse] at h
    | ok records =>
      simp only [hparse] at h
      cases hsel : (find_elements records elements).isEmpty with
      | true => simp [hsel] at h
      | false =>
        simp only [hsel] at h
        cases hfetch : fetchChunks env bucket (gfs_grib_key dt fh)
            (find_elements records elements) with
        | error e => simp [hfetch] at h
        | ok chunks =>
          simp only [hfetch] at h
          cases hmk : makedirs env (dirname path) with
          | error e => simp [hmk] at h
          | ok u =>
            simp only [hmk] at h
            cases hw : env.writeOracle path with
            | error e => simp [hw] at h
            | ok u2 =>
              refine ⟨idxc, records, chunks, rfl, hparse, hsel, hfetch, ?_⟩
              unfold download_gfs_data
              simp [hfull, hparse, hsel, hfetch, hmk, hw]

theorem fetchChunks_forall2 (env : S3Env) (b k : String) :
    ∀ (l : List GribElement) (chunks : List (List Nat)),
      fetchChunks env b k l = .ok chunks →
      List.Forall₂
        (fun e ch => env.getObjectRange b k e.start_byte (e.end_byte - 1) = .ok ch)
        l chunks := by
  intro l
  induction l with
  | nil =>
    intro chunks h
    rw [fetchChunks] at h
    cases h
    exact .nil
  | cons e rest ih =>
    intro chunks h
    rw [fetchChunks] at h
    cases hd : download_bytes env b k e.start_byte e.end_byte with
    | error err => rw [hd] at h; cases h
    | ok chunk =>
      rw [hd] at h
      cases ht : fetchChunks env b k rest with
      | error err => rw [ht] at h; cases h
      | ok tail =>
        rw [ht] at h
        cases h
        exact .cons hd (ih tail ht)

theorem rangeTrace_eq_map (env : S3Env) (b k : String) :
    ∀ (l : List GribElement) (chunks : List (List Nat)),
      fetchChunks env b k l = .ok chunks →
      rangeTrace env b k l =
        l.map (fun e => .getRange b k e.start_byte (e.end_byte - 1)) := by
  intro l
  induction l with
  | nil => intro chunks h; rfl
  | cons e rest ih =>
    intro chunks h
    rw [fetchChunks] at h
    cases hd : download_bytes env b k e.start_byte e.end_byte with
    | error err => rw [hd] at h; cases h
    | ok chunk =>
      rw [hd] at h
      cases ht : fetchChunks env b k rest with
      | error err => rw [ht] at h; cases h
      | ok tail => rw [rangeTrace, hd, List.map_cons, ih tail ht]

theorem rangeTrace_keys (env : S3Env) (b k : String) :
    ∀ (l : List GribElement) (req : S3Request), req ∈ rangeTrace env b k l →
      ∃ f la, req = .getRange b k f la := by
  intro l
  induction l with
  | nil => intro req h; simp [rangeTrace] at h
  | cons e rest ih =>
    intro req h
    rw [rangeTrace] at h
    rcases List.mem_cons.mp h with h1 | h2
    · exact ⟨_, _, h1⟩
    · cases hd : download_bytes env b k e.start_byte e.end_byte with
      | ok c => rw [hd] at h2; exact ih req h2
      | error err => rw [hd] at h2; simp at h2

theorem forall2_flatten_length (env : S3Env) (b k : String)
    (hlen : ∀ s e bs, env.getObjectRange b k s e = .ok bs → bs.length = (e + 1 - s).toNat)
    (l : List GribElement) (chunks : List (List Nat))
    (hf : List.Forall₂
      (fun e ch => env.getObjectRange b k e.start_byte (e.end_byte - 1) = .ok ch)
      l chunks) :
    chunks.flatten.length = (l.map (fun e => (e.end_byte - e.start_byte).toNat)).sum := by
  induction hf with
  | nil => rfl
  | cons h1 hrest ih =>
    simp only [List.flatten_cons, List.length_append, List.map_cons, List.sum_cons, ih]
    have hc := hlen _ _ _ h1
    omega

theorem download_result_fields (env : S3Env) (fs : FileSystem) (dt : PyDatetime)
    (fh : String) (elements : List TargetElement) (path bucket : String) :
    (download_gfs_data env fs dt fh elements path bucket).result.date = fmtYmd (toUtc dt) ∧
    (download_gfs_data env fs dt fh elements path bucket).result.cycle = fmtH (toUtc dt) ∧
    (download_gfs_data env fs dt fh elements path bucket).result.forecast_hour = fh ∧
    (download_gfs_data env fs dt fh elements path bucket).result.elements = elements ∧
    (download_gfs_data env fs dt fh elements path bucket).result.file_path = some path ∧
    ((download_gfs_data env fs dt fh elements path bucket).result.success = false →
      (download_gfs_data env fs dt fh elements path bucket).result.error_message ≠ none) ∧
    ((download_gfs_data env fs dt fh elements path bucket).result.success = true →
      (download_gfs_data env fs dt fh elements path bucket).result.error_message = none) := by
  unfold download_gfs_data
  cases hfull : env.getObjectFull bucket (gfs_idx_key dt fh) with
  | error e => simp [hfull]
  | ok idxc =>
    cases hparse : parse_idx_content idxc with
    | error e => simp [hfull, hparse]
    | ok records =>
      cases hsel : (find_elements records elements).isEmpty with
      | true => simp [hfull, hparse, hsel]
      | false =>
        cases hfetch : fetchChunks env bucket (gfs_grib_key dt fh)
            (find_elements records elements) with
        | error e => simp [hfull, hparse, hsel, hfetch]
        | ok chunks =>
          cases hmk : makedirs env (dirname path) with
          | error e => simp [hfull, hparse, hsel, hfetch, hmk]
          | ok u =>
            cases hw : env.writeOracle path with
            | error e => simp [hfull, hparse, hsel, hfetch, hmk, hw]
            | ok u2 => simp [hfull, hparse, hsel, hfetch, hmk, hw]

theorem download_trace_keys (env : S3Env) (fs : FileSystem) (dt : PyDatetime)
    (fh : String) (elements : List TargetElement) (path bucket : String) :
    (download_gfs_data env fs dt fh elements path bucket).trace.head? =
      some (.getFull bucket (gfs_idx_key dt fh)) ∧
    ∀ b k f l, S3Request.getRange b k f l ∈
        (download_gfs_data env fs dt fh elements path bucket).trace →
      b = bucket ∧ k = gfs_grib_key dt fh := by
  have hsingle : ∀ b k f l, S3Request.getRange b k f l ∈
      [S3Request.getFull bucket (gfs_idx_key dt fh)] →
      b = bucket ∧ k = gfs_grib_key dt fh := by
    intro b k f l hm
    simp at hm
  unfold download_gfs_data
  cases hfull : env.getObjectFull bucket (gfs_idx_key dt fh) with
  | error e => exact ⟨by simp [hfull], by simp [hfull]⟩
  | ok idxc =>
    cases hparse : parse_idx_content idxc with
    | error e => exact ⟨by simp [hfull, hparse], by simp [hfull, hparse]⟩
    | ok records =>
      cases hsel : (find_elements records elements).isEmpty with
      | true =>
        exact ⟨by simp [hfull, hparse, hsel], by simp [hfull, hparse, hsel]⟩
      | false =>
        have htail : ∀ b k f l, S3Request.getRange b k f l ∈
            (S3Request.getFull bucket (gfs_idx_key dt fh) ::
              rangeTrace env bucket (gfs_grib_key dt fh) (find_elements records elements)) →
            b = bucket ∧ k = gfs_grib_key dt fh := by
          intro b k f l hm
          rcases List.mem_cons.mp hm with h1 | h2
          · exact absurd h1 (by simp)
          · obtain ⟨f2, l2, heq⟩ :=
              rangeTrace_keys env bucket (gfs_grib_key dt fh) _ _ h2
            injection heq with hb hk hf hl
            exact ⟨hb, hk⟩
        cases hfetch : fetchChunks env bucket (gfs_grib_key dt fh)
            (find_elements records elements) with
        | error e =>
          exact ⟨by simp [hfull, hparse, hsel, hfetch],
                 by simpa [hfull, hparse, hsel, hfetch] using htail⟩
        | ok chunks =>
          cases hmk : makedirs env (dirname path) with
          | error e =>
            exact ⟨by simp [hfull, hparse, hsel, hfetch, hmk],
                   by simpa [hfull, hparse, hsel, hfetch, hmk] using htail⟩
          | ok u =>
            cases hw : env.writeOracle path with
            | error e =>
              exact ⟨by simp [hfull, hparse, hsel, hfetch, hmk, hw],
                     by simpa [hfull, hparse, hsel, hfetch, hmk, hw] using htail⟩
            | ok u2 =>
              exact ⟨by simp [hfull, hparse, hsel, hfetch, hmk, hw],
                     by simpa [hfull, hparse, hsel, hfetch, hmk, hw] using htail⟩

/-- C2 -/
theorem download_failure_writes_nothing (env : S3Env) (fs : FileSystem)
    (dt : PyDatetime) (fh : String) (elements : List TargetElement)
    (path bucket : String)
    (h : (download_gfs_data env fs dt fh elements path bucket).result.success = false) :
    (download_gfs_data env fs dt fh elements path bucket).fs = fs :=
  download_failure_fs_unchanged env fs dt fh elements path bucket h

/-- C2 witness -/
theorem download_failure_writes_nothing_witness :
    (download_gfs_data failSecondEnv fsWithFile sampleDt "000" sampleTargets
        "out/f.grib2" "noaa-gfs-bdp-pds").result.success = false ∧
    (download_gfs_data failSecondEnv fsWithFile sampleDt "000" sampleTargets
        "out/f.grib2" "noaa-gfs-bdp-pds").fs = fsWithFile :=
  ⟨by decide,
   download_failure_writes_nothing failSecondEnv fsWithFile sampleDt "000" sampleTargets
     "out/f.grib2" "noaa-gfs-bdp-pds" (by decide)⟩

/-- C3 -/
theorem download_total_outcome (env : S3Env) (fs : FileSystem) (dt : PyDatetime)
    (fh : String) (elements : List TargetElement) (path bucket : String) :
    (download_gfs_data env fs dt fh elements path bucket).result.date = fmtYmd (toUtc dt) ∧
    (download_gfs_data env fs dt fh elements path bucket).result.cycle = fmtH (toUtc dt) ∧
    (download_gfs_data env fs dt fh elements path bucket).result.forecast_hour = fh ∧
    (download_gfs_data env fs dt fh elements path bucket).result.elements = elements ∧
    (download_gfs_data env fs dt fh elements path bucket).result.file_path = some path ∧
    ((download_gfs_data env fs dt fh elements path bucket).result.success = false →
      (download_gfs_data env fs dt fh elements path bucket).result.error_message ≠ none) :=
  have h := download_result_fields env fs dt fh elements path bucket
  ⟨h.1, h.2.1, h.2.2.1, h.2.2.2.1, h.2.2.2.2.1, h.2.2.2.2.2.1⟩

/-- C3 witness -/
theorem download_total_outcome_witness :
    (download_gfs_data failSecondEnv emptyFS sampleDt "000" sampleTargets
        "out/f.grib2" "noaa-gfs-bdp-pds").result.date = "20250326" ∧
    (download_gfs_data failSecondEnv emptyFS sampleDt "000" sampleTargets
        "out/f.grib2" "noaa-gfs-bdp-pds").result.error_message ≠ none := by
  have h := download_total_outcome failSecondEnv emptyFS sampleDt "000" sampleTargets
    "out/f.grib2" "noaa-gfs-bdp-pds"
  exact ⟨by rw [h.1]; decide, h.2.2.2.2.2 (by decide)⟩

/-- C6 -/
theorem download_success_concat_invariant (env : S3Env) (fs : FileSystem)
    (dt : PyDatetime) (fh : String) (elements : List TargetElement)
    (path bucket : String)
    (hlen : ∀ b k s e bs, env.getObjectRange b k s e = .ok bs →
      bs.length = (e + 1 - s).toNat)
    (hs : (download_gfs_data env fs dt fh elements path bucket).result.success = true) :
    ∃ idxc records chunks,
      env.getObjectFull bucket (gfs_idx_key dt fh) = .ok idxc ∧
      parse_idx_content idxc = .ok records ∧
      List.Forall₂
        (fun e ch =>
          env.getObjectRange bucket (gfs_grib_key dt fh) e.start_byte (e.end_byte - 1) =
            .ok ch)
        (find_elements records elements) chunks ∧
      (download_gfs_data env fs dt fh elements path bucket).fs path =
        some chunks.flatten ∧
      chunks.flatten.length =
        ((find_elements records elements).map
          (fun e => (e.end_byte - e.start_byte).toNat)).sum ∧
      (download_gfs_data env fs dt fh elements path bucket).result.file_size_mb =
        some ((chunks.flatten.length : ℚ) / 1024 / 1024) := by
  obtain ⟨idxc, records, chunks, hfull, hparse, hsel, hfetch, heq⟩ :=
    download_success_inv env fs dt fh elements path bucket hs
  refine ⟨idxc, records, chunks, hfull, hparse,
    fetchChunks_forall2 env bucket (gfs_grib_key dt fh) _ _ hfetch, ?_, ?_, ?_⟩
  · rw [heq]; simp
  · exact forall2_flatten_length env bucket (gfs_grib_key dt fh)
      (fun s e bs => hlen bucket (gfs_grib_key dt fh) s e bs) _ _
      (fetchChunks_forall2 env bucket (gfs_grib_key dt fh) _ _ hfetch)
  · rw [heq]

/-- C6 witness -/
theorem download_success_concat_invariant_witness :
    ∃ idxc records chunks,
      okEnv.getObjectFull "noaa-gfs-bdp-pds" (gfs_idx_key sampleDt "000") = .ok idxc ∧
      parse_idx_content idxc = .ok records ∧
      List.Forall₂
        (fun e ch =>
          okEnv.getObjectRange "noaa-gfs-bdp-pds" (gfs_grib_key sampleDt "000")
            e.start_byte (e.end_byte - 1) = .ok ch)
        (find_elements records sampleTargets) chunks ∧
      (download_gfs_data okEnv emptyFS sampleDt "000" sampleTargets
          "out/f.grib2" "noaa-gfs-bdp-pds").fs "out/f.grib2" = some chunks.flatten ∧
      chunks.flatten.length =
        ((find_elements records sampleTargets).map
          (fun e => (e.end_byte - e.start_byte).toNat)).sum ∧
      (download_gfs_data okEnv emptyFS sampleDt "000" sampleTargets
          "out/f.grib2" "noaa-gfs-bdp-pds").result.file_size_mb =
        some ((chunks.flatten.length : ℚ) / 1024 / 1024) :=
  download_success_concat_invariant okEnv emptyFS sampleDt "000" sampleTargets
    "out/f.grib2" "noaa-gfs-bdp-pds"
    (by
      intro b k s e bs hbs
      simp only [okEnv, Except.ok.injEq] at hbs
      rw [← hbs]
      simp)
    (by decide)

/-- C7 -/
theorem download_inclusive_range_requests (env : S3Env) (fs : FileSystem)
    (dt : PyDatetime) (fh : String) (elements : List TargetElement)
    (path bucket : String)
    (hs : (download_gfs_data env fs dt fh elements path bucket).result.success = true) :
    ∃ idxc records,
      env.getObjectFull bucket (gfs_idx_key dt fh) = .ok idxc ∧
      parse_idx_content idxc = .ok records ∧
      (download_gfs_data env fs dt fh elements path bucket).trace =
        .getFull bucket (gfs_idx_key dt fh) ::
          (find_elements records elements).map
            (fun e => .getRange bucket (gfs_grib_key dt fh) e.start_byte (e.end_byte - 1)) := by
  obtain ⟨idxc, records, chunks, hfull, hparse, hsel, hfetch, heq⟩ :=
    download_success_inv env fs dt fh elements path bucket hs
  refine ⟨idxc, records, hfull, hparse, ?_⟩
  rw [heq]
  simp only
  rw [rangeTrace_eq_map env bucket (gfs_grib_key dt fh) _ _ hfetch]

/-- C7 witness -/
theorem download_inclusive_range_requests_witness :
    ∃ idxc records,
      okEnv.getObjectFull "noaa-gfs-bdp-pds" (gfs_idx_key sampleDt "000") = .ok idxc ∧
      parse_idx_content idxc = .ok records ∧
      (download_gfs_data okEnv emptyFS sampleDt "000" sampleTargets
          "out/f.grib2" "noaa-gfs-bdp-pds").trace =
        .getFull "noaa-gfs-bdp-pds" (gfs_idx_key sampleDt "000") ::
          (find_elements records sampleTargets).map
            (fun e => .getRange "noaa-gfs-bdp-pds" (gfs_grib_key sampleDt "000")
              e.start_byte (e.end_byte - 1)) :=
  download_inclusive_range_requests okEnv emptyFS sampleDt "000" sampleTargets
    "out/f.grib2" "noaa-gfs-bdp-pds" (by decide)

/-- C8 -/
theorem download_key_derivation (env : S3Env) (fs : FileSystem) (dt : PyDatetime)
    (fh : String) (elements : List TargetElement) (path bucket : String) :
    (download_gfs_data env fs dt fh elements path bucket).trace.head? =
      some (.getFull bucket
        ("gfs." ++ fmtYmd (toUtc dt) ++ "/" ++ fmtH (toUtc dt) ++ "/atmos/gfs.t" ++
          fmtH (toUtc dt) ++ "z.pgrb2.0p25.f" ++ fh ++ ".idx")) ∧
    (∀ b k f l, S3Request.getRange b k f l ∈
        (download_gfs_data env fs dt fh elements path bucket).trace →
      k = "gfs." ++ fmtYmd (toUtc dt) ++ "/" ++ fmtH (toUtc dt) ++ "/atmos/gfs.t" ++
        fmtH (toUtc dt) ++ "z.pgrb2.0p25.f" ++ fh) ∧
    (download_gfs_data env fs dt fh elements path bucket).result.date =
      fmtYmd (toUtc dt) ∧
    (download_gfs_data env fs dt fh elements path bucket).result.cycle =
      fmtH (toUtc dt) ∧
    (dt.tzOffsetMinutes = none →
      toUtc dt = ⟨dt.year, dt.month, dt.day, dt.hour, dt.minute, some 0⟩) := by
  have hk := download_trace_keys env fs dt fh elements path bucket
  have hr := download_result_fields env fs dt fh elements path bucket
  refine ⟨hk.1, fun b k f l hm => (hk.2 b k f l hm).2, hr.1, hr.2.1, ?_⟩
  intro hnone
  rw [toUtc, hnone]

/-- C8 witness -/
theorem download_key_derivation_witness :
    (download_gfs_data okEnv emptyFS sampleDt "000" sampleTargets
        "out/f.grib2" "noaa-gfs-bdp-pds").trace.head? =
      some (.getFull "noaa-gfs-bdp-pds"
        ("gfs." ++ fmtYmd (toUtc sampleDt) ++ "/" ++ fmtH (toUtc sampleDt) ++
          "/atmos/gfs.t" ++ fmtH (toUtc sampleDt) ++ "z.pgrb2.0p25.f" ++ "000" ++ ".idx")) ∧
    "gfs.20250326/00/atmos/gfs.t00z.pgrb2.0p25.f000" =
      "gfs." ++ fmtYmd (toUtc sampleDt) ++ "/" ++ fmtH (toUtc sampleDt) ++
        "/atmos/gfs.t" ++ fmtH (toUtc sampleDt) ++ "z.pgrb2.0p25.f" ++ "000" := by
  have h := download_key_derivation okEnv emptyFS sampleDt "000" sampleTargets
    "out/f.grib2" "noaa-gfs-bdp-pds"
  exact ⟨h.1,
    h.2.1 "noaa-gfs-bdp-pds" "gfs.20250326/00/atmos/gfs.t00z.pgrb2.0p25.f000" 0 499
      (by decide)⟩

/-- C9 -/
theorem throughput_division_guard :
    (∀ (b : Nat) (t : ℚ), t ≤ 0 → speed_mbps b t = 0) ∧
    (∀ (b : Nat) (t : ℚ), 0 < t →
      speed_mbps b t = ((b : ℚ) / 1024 / 1024) / t) ∧
    (∀ (env : S3Env) (fs : FileSystem) (dt : PyDatetime) (fh : String)
        (elements : List TargetElement) (path bucket : String),
      (download_gfs_data env fs dt fh elements path bucket).result.success = true →
      env.totalElapsed ≤ 0 →
      (download_gfs_data env fs dt fh elements path bucket).result.download_speed_mbs =
        some 0) := by
  have hz : ∀ (b : Nat) (t : ℚ), t ≤ 0 → speed_mbps b t = 0 := by
    intro b t ht
    rw [speed_mbps, if_neg (not_lt.mpr ht)]
  refine ⟨hz, ?_, ?_⟩
  · intro b t ht
    rw [speed_mbps, if_pos ht]
  · intro env fs dt fh elements path bucket hs ht
    obtain ⟨idxc, records, chunks, hfull, hparse, hsel, hfetch, heq⟩ :=
      download_success_inv env fs dt fh elements path bucket hs
    rw [heq]
    simp only
    rw [hz _ _ ht]

/-- C9 witness -/
theorem throughput_division_guard_witness :
    speed_mbps 500 0 = 0 ∧
    (download_gfs_data okEnv emptyFS sampleDt "000" sampleTargets
        "out/f.grib2" "noaa-gfs-bdp-pds").result.download_speed_mbs = some 0 := by
  have h := throughput_division_guard
  exact ⟨h.1 500 0 le_rfl,
    h.2.2 okEnv emptyFS sampleDt "000" sampleTargets "out/f.grib2" "noaa-gfs-bdp-pds"
      (by decide) (by rw [show okEnv.totalElapsed = 0 from rfl])⟩

/-- C10 -/
theorem download_bare_filename_fails (env : S3Env) (fs : FileSystem) (dt : PyDatetime)
    (fh : String) (elements : List TargetElement) (path bucket : String)
    (h : dirname path = "") :
    (download_gfs_data env fs dt fh elements path bucket).result.success = false ∧
    (download_gfs_data env fs dt fh elements path bucket).result.error_message ≠ none ∧
    (download_gfs_data env fs dt fh elements path bucket).fs = fs := by
  unfold download_gfs_data
  cases hfull : env.getObjectFull bucket (gfs_idx_key dt fh) with
  | error e => simp [hfull]
  | ok idxc =>
    cases hparse : parse_idx_content idxc with
    | error e => simp [hfull, hparse]
    | ok records =>
      cases hsel : (find_elements records elements).isEmpty with
      | true => simp [hfull, hparse, hsel]
      | false =>
        cases hfetch : fetchChunks env bucket (gfs_grib_key dt fh)
            (find_elements records elements) with
        | error e => simp [hfull, hparse, hsel, hfetch]
        | ok chunks => simp [hfull, hparse, hsel, hfetch, h, makedirs]

/-- C10 witness -/
theorem download_bare_filename_fails_witness :
    (download_gfs_data okEnv emptyFS sampleDt "000" sampleTargets
        "out.grib2" "noaa-gfs-bdp-pds").result.success = false ∧
    (download_gfs_data okEnv emptyFS sampleDt "000" sampleTargets
        "out.grib2" "noaa-gfs-bdp-pds").result.error_message ≠ none ∧
    (download_gfs_data okEnv emptyFS sampleDt "000" sampleTargets
        "out.grib2" "noaa-gfs-bdp-pds").fs = emptyFS :=
  download_bare_filename_fails okEnv emptyFS sampleDt "000" sampleTargets
    "out.grib2" "noaa-gfs-bdp-pds" (by decide)

end Zonaite
